import Mathlib

/-!
Verification of the `Owned<T>` adapter of `src/owned.rs`.

The Rust source defines `pub struct Owned<T>(T) where T: Copy + ?Sized`, a
single-field tuple struct that wraps an owned value so that it masquerades
as a reference, together with trait implementations that all delegate to
the wrapped field `self.0`:

  * `Owned::new(t)` builds `Owned(t)`;
  * `Deref::deref`, `AsRef::as_ref`, `Borrow::borrow` return `&self.0`;
  * `DerefMut::deref_mut`, `AsMut::as_mut`, `BorrowMut::borrow_mut`
    return `&mut self.0` (so a store through any of them replaces the
    single field);
  * `Default::default()` is `Owned(Default::default())`;
  * `fmt::Debug::fmt(self, f)` is `fmt::Debug::fmt(&self.0, f)`;
  * `Hash::hash(self, state)` is `self.0.hash(state)`;
  * `PartialEq<Owned<R>> for Owned<T>` delegates `eq` and `ne` to
    `T: PartialEq<R>`;
  * `PartialOrd<Owned<R>> for Owned<T>` delegates `partial_cmp`, `lt`,
    `le`, `gt`, `ge` to `T: PartialOrd<R>`;
  * `Ord::cmp` delegates to `T: Ord`.

The shallow embedding below renders the container as a one-field Lean
structure and each trait method as a function on it.  The wrapped type's
own trait methods (`T::eq`, `T::hash`, `T::fmt`, ...) are abstract
parameters of the corresponding container operation, exactly as the Rust
impls are generic over `T`'s implementations.  Reads through a reference
return the referent's value; a store through a mutable reference to the
field is rendered as the functional update of that field.  The Rust bound
`T: Copy + ?Sized` is a purely static constraint with no runtime content,
so it has no counterpart on the Lean type.
-/

universe u v w

/-- `pub struct Owned<T>(T)`: a single-field tuple struct; the anonymous
field `self.0` is named `val` here.  It holds exactly one instance of `T`,
supplied at construction time. -/
structure Owned (T : Type u) where
  val : T

namespace Owned

variable {T : Type u} {R : Type v}

/-- `Owned::new`: `pub fn new(t: T) -> Owned<T> { Owned(t) }`. -/
def new (t : T) : Owned T := ⟨t⟩

/-- `Deref for Owned<T>`: `fn deref(&self) -> &T { &self.0 }`.  Reading
through the returned reference observes the single field. -/
def deref (o : Owned T) : T := o.val

/-- `AsRef<T> for Owned<T>`: `fn as_ref(&self) -> &T { &self.0 }`. -/
def as_ref (o : Owned T) : T := o.val

/-- `Borrow<T> for Owned<T>`: `fn borrow(&self) -> &T { &self.0 }`. -/
def borrow (o : Owned T) : T := o.val

/-- `DerefMut for Owned<T>`: `fn deref_mut(&mut self) -> &mut T { &mut self.0 }`,
read through the returned mutable reference. -/
def deref_mut (o : Owned T) : T := o.val

/-- `AsMut<T> for Owned<T>`: `fn as_mut(&mut self) -> &mut T { &mut self.0 }`,
read through the returned mutable reference. -/
def as_mut (o : Owned T) : T := o.val

/-- `BorrowMut<T> for Owned<T>`: `fn borrow_mut(&mut self) -> &mut T { &mut self.0 }`,
read through the returned mutable reference. -/
def borrow_mut (o : Owned T) : T := o.val

/-- Storing `w` through the `&mut self.0` returned by `deref_mut`
replaces the single field of the container by `w`. -/
def write_deref_mut (o : Owned T) (w : T) : Owned T := { o with val := w }

/-- Storing `w` through the `&mut self.0` returned by `as_mut`. -/
def write_as_mut (o : Owned T) (w : T) : Owned T := { o with val := w }

/-- Storing `w` through the `&mut self.0` returned by `borrow_mut`. -/
def write_borrow_mut (o : Owned T) (w : T) : Owned T := { o with val := w }

/-- `Default for Owned<T> where T: Default`:
`fn default() -> Self { Owned(Default::default()) }`.  Lean's
`Inhabited.default` plays the role of `T::default()`. -/
def default (T : Type u) [Inhabited T] : Owned T := ⟨Inhabited.default⟩

/-- `fmt::Debug for Owned<T> where T: fmt::Debug`:
`fn fmt(&self, f) { fmt::Debug::fmt(&self.0, f) }`.  `fmtT` stands for
`T`'s own `Debug::fmt` action, abstract in the formatter (the result type
`α` may be the formatter-state transformer). -/
def fmt {α : Type w} (fmtT : T → α) (o : Owned T) : α := fmtT o.val

/-- `Hash for Owned<T> where T: Hash`:
`fn hash<H: Hasher>(&self, state: &mut H) { self.0.hash(state); }`.
`hashT` is `T`'s own `Hash::hash`, as a transformer of hasher states `σ`. -/
def hash {σ : Type w} (hashT : T → σ → σ) (o : Owned T) (state : σ) : σ :=
  hashT o.val state

/-- `PartialEq<Owned<R>> for Owned<T> where T: PartialEq<R>`:
`fn eq(&self, other: &Owned<R>) -> bool { self.0.eq(&other.0) }`. -/
def eq (eqTR : T → R → Bool) (a : Owned T) (b : Owned R) : Bool :=
  eqTR a.val b.val

/-- `fn ne(&self, other: &Owned<R>) -> bool { self.0.ne(&other.0) }`. -/
def ne (neTR : T → R → Bool) (a : Owned T) (b : Owned R) : Bool :=
  neTR a.val b.val

/-- `PartialOrd<Owned<R>> for Owned<T> where T: PartialOrd<R>`:
`fn partial_cmp(&self, other: &Owned<R>) -> Option<Ordering>
{ self.0.partial_cmp(&other.0) }`. -/
def partial_cmp (pcTR : T → R → Option Ordering) (a : Owned T) (b : Owned R) :
    Option Ordering :=
  pcTR a.val b.val

/-- `fn lt(&self, other: &Owned<R>) -> bool { self.0.lt(&other.0) }`. -/
def lt (ltTR : T → R → Bool) (a : Owned T) (b : Owned R) : Bool :=
  ltTR a.val b.val

/-- `fn le(&self, other: &Owned<R>) -> bool { self.0.le(&other.0) }`. -/
def le (leTR : T → R → Bool) (a : Owned T) (b : Owned R) : Bool :=
  leTR a.val b.val

/-- `fn gt(&self, other: &Owned<R>) -> bool { self.0.gt(&other.0) }`. -/
def gt (gtTR : T → R → Bool) (a : Owned T) (b : Owned R) : Bool :=
  gtTR a.val b.val

/-- `fn ge(&self, other: &Owned<R>) -> bool { self.0.ge(&other.0) }`. -/
def ge (geTR : T → R → Bool) (a : Owned T) (b : Owned R) : Bool :=
  geTR a.val b.val

/-- `Ord for Owned<T> where T: Ord`:
`fn cmp(&self, other: &Self) -> Ordering { self.0.cmp(&other.0) }`. -/
def cmp (cmpT : T → T → Ordering) (a b : Owned T) : Ordering :=
  cmpT a.val b.val

end Owned

/-- C1: for every value `v` of type `T`, constructing the adapter with
`Owned::new(v)` and then reading through each immutable accessor
(`deref`, `as_ref`, `borrow`) yields a value equal to `v`. -/
theorem C1_new_then_read {T : Type u} (v : T) :
    (Owned.new v).deref = v ∧ (Owned.new v).as_ref = v ∧ (Owned.new v).borrow = v :=
  ⟨rfl, rfl, rfl⟩

/-- C2: writing `w` through any mutable accessor (`deref_mut`, `as_mut`,
`borrow_mut`, all of which return `&mut self.0`) and then reading through
any immutable accessor observes `w`. -/
theorem C2_write_then_read {T : Type u} (o : Owned T) (w : T) :
    ((o.write_deref_mut w).deref = w ∧ (o.write_deref_mut w).as_ref = w
      ∧ (o.write_deref_mut w).borrow = w)
  ∧ ((o.write_as_mut w).deref = w ∧ (o.write_as_mut w).as_ref = w
      ∧ (o.write_as_mut w).borrow = w)
  ∧ ((o.write_borrow_mut w).deref = w ∧ (o.write_borrow_mut w).as_ref = w
      ∧ (o.write_borrow_mut w).borrow = w) :=
  ⟨⟨rfl, rfl, rfl⟩, ⟨rfl, rfl, rfl⟩, ⟨rfl, rfl, rfl⟩⟩

/-- C3: for all `a b : T`, `Owned::new(a)` and `Owned::new(b)` compare
equal iff `a == b` and unequal iff `a != b` (each delegated to `T`'s own
`eq`/`ne`); moreover the result of `eq`/`ne` on two containers is a
function of the contained values alone, so it never depends on container
identity or storage address. -/
theorem C3_content_based_equality {T : Type u} (eqT neT : T → T → Bool) (a b : T) :
    (Owned.eq eqT (Owned.new a) (Owned.new b) = true ↔ eqT a b = true)
  ∧ (Owned.ne neT (Owned.new a) (Owned.new b) = true ↔ neT a b = true)
  ∧ (∀ c d : Owned T, Owned.eq eqT c d = eqT c.val d.val)
  ∧ (∀ c d : Owned T, Owned.ne neT c d = neT c.val d.val) :=
  ⟨Iff.rfl, Iff.rfl, fun _ _ => rfl, fun _ _ => rfl⟩

/-- C4: every ordering operation on the containers delegates to the
contained values: `partial_cmp`, `cmp`, `lt`, `le`, `gt`, `ge` on
`Owned::new(a)` and `Owned::new(b)` each agree with the corresponding
comparison of `a` and `b`. -/
theorem C4_ordering_delegates {T : Type u} (pcT : T → T → Option Ordering)
    (cmT : T → T → Ordering) (ltT leT gtT geT : T → T → Bool) (a b : T) :
    Owned.partial_cmp pcT (Owned.new a) (Owned.new b) = pcT a b
  ∧ Owned.cmp cmT (Owned.new a) (Owned.new b) = cmT a b
  ∧ Owned.lt ltT (Owned.new a) (Owned.new b) = ltT a b
  ∧ Owned.le leT (Owned.new a) (Owned.new b) = leT a b
  ∧ Owned.gt gtT (Owned.new a) (Owned.new b) = gtT a b
  ∧ Owned.ge geT (Owned.new a) (Owned.new b) = geT a b :=
  ⟨rfl, rfl, rfl, rfl, rfl, rfl⟩

/-- C5: hashing `Owned::new(v)` feeds exactly the same data to the hasher
state as hashing `v` itself (`self.0.hash(state)`); consequently two
containers with equal contents hash identically. -/
theorem C5_hash_delegates {T : Type u} {σ : Type w} (hashT : T → σ → σ)
    (v : T) (s : σ) (a b : Owned T) (h : a.val = b.val) :
    Owned.hash hashT (Owned.new v) s = hashT v s
  ∧ Owned.hash hashT a s = Owned.hash hashT b s :=
  ⟨rfl, by unfold Owned.hash; rw [h]⟩

/-- C5 witness: the delegation and equal-contents consequence at the
concrete hasher `fun t s => t + s`, contents `2` and `3`, state `5`. -/
theorem C5_hash_delegates_witness :
    (Owned.new 3 : Owned Nat).val = (Owned.new 3 : Owned Nat).val
  ∧ (Owned.hash (fun t s => t + s) (Owned.new 2) (5 : Nat) = 2 + 5
   ∧ Owned.hash (fun t s => t + s) (Owned.new 3) (5 : Nat)
       = Owned.hash (fun t s => t + s) (Owned.new 3) (5 : Nat)) :=
  ⟨rfl, C5_hash_delegates (fun t s => t + s) 2 5 (Owned.new 3) (Owned.new 3) rfl⟩

/-- C6: the debug-formatted output of the adapter `Owned::new(v)` equals
the formatted output of the plain wrapped value `v`, for any `Debug::fmt`
action `fmtT` of the wrapped type; indeed the formatting of any container
is exactly the formatting of its contained value. -/
theorem C6_fmt_delegates {T : Type u} {α : Type w} (fmtT : T → α) (v : T) :
    Owned.fmt fmtT (Owned.new v) = fmtT v
  ∧ (∀ o : Owned T, Owned.fmt fmtT o = fmtT o.val) :=
  ⟨rfl, fun _ => rfl⟩

/-- C7: for every type `T` with a default value, the default-constructed
adapter holds exactly `T`'s default value: reading it through the
immutable accessor yields `T::default()` (`Inhabited.default`). -/
theorem C7_default_holds_default (T : Type u) [Inhabited T] :
    (Owned.default T).deref = (Inhabited.default : T) :=
  rfl

/-- C9: no operation of the adapter can fail at runtime: construction,
every accessor and the writes through the mutable ones, default
construction, equality, ordering, hashing, and formatting are total
functions whose result on every input is the stated delegated value; the
`T: Copy` bound has no runtime counterpart. -/
theorem C9_all_operations_total {T : Type u} {R : Type v} {σ α : Type w}
    [Inhabited T] (v w' : T) (o p : Owned T) (q : Owned R)
    (eqTR neTR ltTR leTR gtTR geTR : T → R → Bool)
    (pcTR : T → R → Option Ordering) (cmpT : T → T → Ordering)
    (hashT : T → σ → σ) (s : σ) (fmtT : T → α) :
    Owned.new v = ⟨v⟩
  ∧ o.deref = o.val ∧ o.as_ref = o.val ∧ o.borrow = o.val
  ∧ o.deref_mut = o.val ∧ o.as_mut = o.val ∧ o.borrow_mut = o.val
  ∧ o.write_deref_mut w' = ⟨w'⟩ ∧ o.write_as_mut w' = ⟨w'⟩
  ∧ o.write_borrow_mut w' = ⟨w'⟩
  ∧ Owned.default T = ⟨Inhabited.default⟩
  ∧ Owned.eq eqTR o q = eqTR o.val q.val
  ∧ Owned.ne neTR o q = neTR o.val q.val
  ∧ Owned.partial_cmp pcTR o q = pcTR o.val q.val
  ∧ Owned.lt ltTR o q = ltTR o.val q.val
  ∧ Owned.le leTR o q = leTR o.val q.val
  ∧ Owned.gt gtTR o q = gtTR o.val q.val
  ∧ Owned.ge geTR o q = geTR o.val q.val
  ∧ Owned.cmp cmpT o p = cmpT o.val p.val
  ∧ Owned.hash hashT o s = hashT o.val s
  ∧ Owned.fmt fmtT o = fmtT o.val :=
  ⟨rfl, rfl, rfl, rfl, rfl, rfl, rfl, rfl, rfl, rfl, rfl,
   rfl, rfl, rfl, rfl, rfl, rfl, rfl, rfl, rfl, rfl⟩

/-- C10: for any two wrapped types `T` and `R` with `T` comparable to `R`,
the cross-type equality (`eq`, `ne`) and partial-ordering
(`partial_cmp`, `lt`, `le`, `gt`, `ge`) operations on `Owned<T>` and
`Owned<R>` each return exactly the result of the corresponding comparison
of the two contained values. -/
theorem C10_heterogeneous_comparison {T : Type u} {R : Type v}
    (eqTR neTR ltTR leTR gtTR geTR : T → R → Bool)
    (pcTR : T → R → Option Ordering) (a : T) (b : R) :
    Owned.eq eqTR (Owned.new a) (Owned.new b) = eqTR a b
  ∧ Owned.ne neTR (Owned.new a) (Owned.new b) = neTR a b
  ∧ Owned.partial_cmp pcTR (Owned.new a) (Owned.new b) = pcTR a b
  ∧ Owned.lt ltTR (Owned.new a) (Owned.new b) = ltTR a b
  ∧ Owned.le leTR (Owned.new a) (Owned.new b) = leTR a b
  ∧ Owned.gt gtTR (Owned.new a) (Owned.new b) = gtTR a b
  ∧ Owned.ge geTR (Owned.new a) (Owned.new b) = geTR a b :=
  ⟨rfl, rfl, rfl, rfl, rfl, rfl, rfl⟩
